import Mathlib

/-!
Verification of the Houdini-Toolbox `inline.py` module: a shallow embedding
of the Python wrapper functions and of the small C++ native snippets they
delegate to, with theorems checking the specification's claims.

Host-kernel operations that the repository does not implement (HOM methods
such as `normalized`, the OTL manager's `findLibrary`, the detail's
`findPrimitiveByName` search) are modelled as opaque function parameters;
everything else is translated directly from the source.
-/

namespace HT

/-- Python exceptions that functions in the module can raise.
`operationFailed` and `geometryPermissionError` are host-defined
(`hou.OperationFailed`, `hou.GeometryPermissionError`); the others are
Python built-ins. -/
inductive PyExc where
  | valueError (msg : String)
  | typeError (msg : String)
  | indexError (msg : String)
  | operationFailed (msg : String)
  | geometryPermissionError
  deriving DecidableEq

/-- Whether an exception type is defined by the host scripting API
(`hou.*`) rather than being a built-in of the implementation language. -/
def isHostDefined : PyExc → Bool
  | PyExc.operationFailed _ => true
  | PyExc.geometryPermissionError => true
  | _ => false

/-- The `hou.geometryType` enumeration members used by the module. -/
inductive GeometryType where
  | Points
  | Primitives
  | Edges
  deriving DecidableEq

/-- A record of one call into the compiled native (`_cpp_methods`) layer,
with the primitive arguments the wrapper passes. -/
inductive NativeCall where
  | sortAlongAxisNative (mode : Int) (axis : Int)
  | createPointsNative (count : Int)
  | shiftListNative (mode : Int) (offset : Int)
  | inputLabelNative (index : Int)
  deriving DecidableEq

/-- `hou.Geometry.sortAlongAxis(geometry_type, axis)`: verify the axis is in
`range(3)`, then dispatch on the geometry type, calling the native
`sortAlongAxis` with mode 0 for points and 1 for primitives; any other
geometry type raises `hou.OperationFailed`.  Returns the outcome together
with the list of native calls made. -/
def sortAlongAxis (geometry_type : GeometryType) (axis : Int) :
    Except PyExc Unit × List NativeCall :=
  if ¬ (axis = 0 ∨ axis = 1 ∨ axis = 2) then
    (Except.error (PyExc.valueError ("Invalid axis: " ++ toString axis)), [])
  else if geometry_type = GeometryType.Points then
    (Except.ok (), [NativeCall.sortAlongAxisNative 0 axis])
  else if geometry_type = GeometryType.Primitives then
    (Except.ok (), [NativeCall.sortAlongAxisNative 1 axis])
  else
    (Except.error (PyExc.operationFailed "Geometry type must be points or primitives."), [])

/-- The state of a `GU_Detail` that the point-creation code touches: the
number of points currently in the detail. -/
structure Geometry where
  numPoints : Nat
  deriving DecidableEq

/-- The native `createPoints` snippet: loop `count` times, append a point
offset and record its point index.  Returns the updated detail and the list
of new point numbers. -/
def createPoints_native (gdp : Geometry) (count : Int) : Geometry × List Nat :=
  (⟨gdp.numPoints + count.toNat⟩,
   (List.range count.toNat).map (fun i => gdp.numPoints + i))

/-- `hou.Geometry.createPoints(count)`: raise `hou.OperationFailed` when
`count <= 0`, otherwise delegate to the native `createPoints` and return
the numbers of the points created (the wrapper globs these numbers back
into `hou.Point` objects).  Returns the outcome, the resulting geometry and
the native calls made. -/
def createPoints (gdp : Geometry) (count : Int) :
    Except PyExc (List Nat) × Geometry × List NativeCall :=
  if count ≤ 0 then
    (Except.error (PyExc.operationFailed "Invalid number of points."), gdp, [])
  else
    let r := createPoints_native gdp count
    (Except.ok r.2, r.1, [NativeCall.createPointsNative count])

/-- The native `findPrimitiveByName` snippet: the host detail search is
opaque (modelled as `hostFound`, the number of the matching primitive when
one exists); the snippet returns that number, or `-1` when no primitive was
found. -/
def findPrimitiveByName_native (hostFound : Option Nat) : Int :=
  match hostFound with
  | some n => (n : Int)
  | none => -1

/-- `hou.Geometry.findPrimByName(name_to_match, name_attribute,
match_number)`: call the native search; when it returns the sentinel `-1`
return `None`, otherwise return the primitive with the returned number
(via `iterPrims()[result]`, represented here by the number itself). -/
def findPrimByName (hostFind : String → String → Int → Option Nat)
    (name_to_match : String) (name_attribute : String) (match_number : Int) :
    Option Nat :=
  let result := findPrimitiveByName_native (hostFind name_to_match name_attribute match_number)
  if result = -1 then none else some result.toNat

/-- The attribute tables of a detail that the shared-string-attribute code
consults: the names of its point and primitive string attributes
(`findStringTuple` succeeds exactly on these). -/
structure AttribGeometry where
  pointStringAttribs : List String
  primStringAttribs : List String
  deriving DecidableEq

/-- The native `setSharedPointStringAttrib` snippet: look up the point
string attribute by name; return 1 when it is invalid, otherwise set the
value over the range and return 0. -/
def setSharedPointStringAttrib_native (gdp : AttribGeometry)
    (attrib_name : String) (value : String) (group_name : String) : Int :=
  if attrib_name ∈ gdp.pointStringAttribs then 0 else 1

/-- The native `setSharedPrimStringAttrib` snippet, identical to the point
version but over primitive string attributes. -/
def setSharedPrimStringAttrib_native (gdp : AttribGeometry)
    (attrib_name : String) (value : String) (group_name : String) : Int :=
  if attrib_name ∈ gdp.primStringAttribs then 0 else 1

/-- `hou.Geometry.setSharedPointStringAttrib(attribute, value, group)`:
pass the group's name (empty string for no group) to the native call and
raise `hou.OperationFailed` when it returns 1. -/
def setSharedPointStringAttrib (gdp : AttribGeometry) (attrib : String)
    (value : String) (group : Option String) : Except PyExc Unit :=
  let group_name := match group with
    | some g => g
    | none => ""
  let result := setSharedPointStringAttrib_native gdp attrib value group_name
  if result = 1 then Except.error (PyExc.operationFailed "Invalid attribute.")
  else Except.ok ()

/-- `hou.Geometry.setSharedPrimStringAttrib(attribute, value, group)`:
same shape as the point version, over the primitive attribute table. -/
def setSharedPrimStringAttrib (gdp : AttribGeometry) (attrib : String)
    (value : String) (group : Option String) : Except PyExc Unit :=
  let group_name := match group with
    | some g => g
    | none => ""
  let result := setSharedPrimStringAttrib_native gdp attrib value group_name
  if result = 1 then Except.error (PyExc.operationFailed "Invalid attribute.")
  else Except.ok ()

/-- A Python function object: its `__name__` and an identity tag so that
distinct functions with equal names stay distinguishable. -/
structure PyFunc where
  fname : String
  fid : Nat
  deriving DecidableEq

/-- A Python attribute dictionary: `setattr` overwrites an existing key and
appends a new one. -/
abbrev Dict (α : Type) := List (String × α)

/-- `setattr`: replace the binding of `k` when present, append it
otherwise. -/
def dictSet {α : Type} (d : Dict α) (k : String) (v : α) : Dict α :=
  match d with
  | [] => [(k, v)]
  | (k₀, v₀) :: rest =>
      if k₀ = k then (k, v) :: rest else (k₀, v₀) :: dictSet rest k v

/-- `getattr`: the first binding of `k`, when any. -/
def dictGet {α : Type} (d : Dict α) (k : String) : Option α :=
  match d with
  | [] => none
  | (k₀, v₀) :: rest => if k₀ = k then some v₀ else dictGet rest k

/-- An unbound method created by `types.MethodType(f, None, target_class)`:
the wrapped function and the class it was bound to. -/
structure UnboundMethod where
  func : PyFunc
  boundClass : String
  deriving DecidableEq

/-- A HOM module extended by `addToModule`: its attribute dictionary. -/
structure PyModule where
  attrs : Dict PyFunc
  deriving DecidableEq

/-- A HOM class extended by `addToClass`: its name and attribute
dictionary. -/
structure HomClass where
  cname : String
  attrs : Dict UnboundMethod
  deriving DecidableEq

/-- The `addToModule(module)` decorator applied to `f`: set the function on
the module under `f.__name__` and return `f` itself. -/
def addToModule (module : PyModule) (f : PyFunc) : PyModule × PyFunc :=
  (⟨dictSet module.attrs f.fname f⟩, f)

/-- `types.MethodType(f, None, target_class)`. -/
def methodType (f : PyFunc) (target_class : HomClass) : UnboundMethod :=
  ⟨f, target_class.cname⟩

/-- The `addToClass(*args, **kwargs)` decorator applied to `f`: for each
target class, set an unbound method wrapping `f` under the `name` keyword
argument when given, else under `f.__name__`; return `f` unmodified. -/
def addToClass (classes : List HomClass) (kwargsName : Option String)
    (f : PyFunc) : List HomClass × PyFunc :=
  (classes.map (fun target_class =>
      let func_name := match kwargsName with
        | some n => n
        | none => f.fname
      ⟨target_class.cname, dictSet target_class.attrs func_name (methodType f target_class)⟩),
   f)

/-- A dynamically typed Python value, for the `isinstance(offset, int)`
check in `shiftElements`. -/
inductive PyValue where
  | intVal (n : Int)
  | floatVal (q : ℚ)
  | strVal (s : String)
  deriving DecidableEq

/-- `type(v).__name__`. -/
def typeName : PyValue → String
  | PyValue.intVal _ => "int"
  | PyValue.floatVal _ => "float"
  | PyValue.strVal _ => "str"

/-- `hou.Geometry.shiftElements(geometry_type, offset)`: raise `TypeError`
when `offset` is not an `int`, then dispatch on the geometry type to the
native `shiftList`, raising `hou.OperationFailed` for any other type. -/
def shiftElements (geometry_type : GeometryType) (offset : PyValue) :
    Except PyExc Unit × List NativeCall :=
  match offset with
  | PyValue.intVal o =>
    if geometry_type = GeometryType.Points then
      (Except.ok (), [NativeCall.shiftListNative 0 o])
    else if geometry_type = GeometryType.Primitives then
      (Except.ok (), [NativeCall.shiftListNative 1 o])
    else
      (Except.error (PyExc.operationFailed "Geometry type must be points or primitives."), [])
  | v => (Except.error (PyExc.typeError ("Got " ++ typeName v ++ ", expected int.")), [])

/-- `hou.Node.inputLabel(index)`: raise `IndexError` when `index` is not in
`range(0, maxNumInputs)`, otherwise return the native label. -/
def inputLabel (maxNumInputs : Nat) (hostLabel : Int → String) (index : Int) :
    Except PyExc String × List NativeCall :=
  if ¬ (0 ≤ index ∧ index < (maxNumInputs : Int)) then
    (Except.error (PyExc.indexError "Index out of range."), [])
  else
    (Except.ok (hostLabel index), [NativeCall.inputLabelNative index])

/-- The `hou.folderType` members. -/
inductive FolderType where
  | Collapsible
  | Simple
  | RadioButtons
  | Tabs
  | MultiparmBlock
  | ScrollingMultiparmBlock
  | TabbedMultiparmBlock
  deriving DecidableEq

/-- The dynamic type of a parameter template, as tested by
`isinstance(parm_template, hou.FolderParmTemplate)`. -/
inductive ParmTemplate where
  | folderTemplate (folder_type : FolderType)
  | intTemplate
  | floatTemplate
  | stringTemplate
  deriving DecidableEq

/-- `hou.Parm.isMultiParm()`: when the template is a folder template whose
folder type is one of the three multiparm block types, return `True`, else
`False`.  The computation is entirely in the scripting layer, so the native
call list is always empty. -/
def isMultiParm (parm_template : ParmTemplate) : Bool × List NativeCall :=
  match parm_template with
  | ParmTemplate.folderTemplate folder_type =>
    if folder_type = FolderType.MultiparmBlock ∨
        folder_type = FolderType.ScrollingMultiparmBlock ∨
        folder_type = FolderType.TabbedMultiparmBlock then
      (true, [])
    else
      (false, [])
  | _ => (false, [])

/-- The native `getMetaSource` snippet: ask the OTL manager for the library
index of the filename (opaque host lookup `findLibrary`); when the index is
non-negative return that library's meta source, else the empty string. -/
def getMetaSource_native (findLibrary : String → Int)
    (libMetaSource : Int → String) (filename : String) : String :=
  let idx := findLibrary filename
  if 0 ≤ idx then libMetaSource idx else ""

/-- `hou.hda.getMetaSource(file_path)`: return `None` when `file_path` is
not among `hou.hda.loadedFiles()`, otherwise the native result. -/
def getMetaSource (loadedFiles : List String) (findLibrary : String → Int)
    (libMetaSource : Int → String) (file_path : String) : Option String :=
  if ¬ (file_path ∈ loadedFiles) then none
  else some (getMetaSource_native findLibrary libMetaSource file_path)

/-- A `hou.Vector3`, with exact rational components. -/
structure Vector3 where
  x : ℚ
  y : ℚ
  z : ℚ
  deriving DecidableEq

/-- `hou.Vector3()`: the zero vector. -/
def v3zero : Vector3 := ⟨0, 0, 0⟩

/-- `hou.Vector3.dot`. -/
def dot (a b : Vector3) : ℚ := a.x * b.x + a.y * b.y + a.z * b.z

/-- Scaling a `hou.Vector3` by a scalar. -/
def smul (c : ℚ) (a : Vector3) : Vector3 := ⟨c * a.x, c * a.y, c * a.z⟩

/-- `hou.Vector3.componentAlong(vector)`: `self.dot(vector.normalized())`.
The host's `normalized` method is opaque and passed in as a parameter. -/
def componentAlong (normalized : Vector3 → Vector3) (self vector : Vector3) : ℚ :=
  dot self (normalized vector)

/-- `hou.Vector3.project(vector)`: raise `hou.OperationFailed` when
`vector` equals `hou.Vector3()`, otherwise return
`vector.normalized() * self.componentAlong(vector)`. -/
def project (normalized : Vector3 → Vector3) (self vector : Vector3) :
    Except PyExc Vector3 :=
  if vector = v3zero then
    Except.error (PyExc.operationFailed "Supplied vector must be non-zero.")
  else
    Except.ok (smul (componentAlong normalized self vector) (normalized vector))

/-- The value of a string detail attribute as `attribValue` returns it: a
single string for a 1-tuple, a tuple of strings otherwise. -/
inductive AttribValue where
  | strOne (s : String)
  | strTuple (vs : List String)
  deriving DecidableEq

/-- The `values` the varmap loop iterates over: a single string is wrapped
into a one-element tuple. -/
def varmapValues (av : AttribValue) : List String :=
  match av with
  | AttribValue.strOne s => [s]
  | AttribValue.strTuple vs => vs

/-- The scanner behind Python `str.split(sep)` for a non-empty separator:
walk the characters left to right, cutting at each non-overlapping
occurrence of the separator.  The fuel argument only makes the recursion
structural; it is always supplied as more than the length of the input. -/
def pySplitAux (sep : List Char) : Nat → List Char → List Char → List (List Char)
  | _, [], cur => [cur.reverse]
  | 0, s, cur => [cur.reverse ++ s]
  | fuel + 1, c :: rest, cur =>
    if sep.isPrefixOf (c :: rest) then
      cur.reverse :: pySplitAux sep fuel (List.drop sep.length (c :: rest)) []
    else
      pySplitAux sep fuel rest (c :: cur)

/-- Python `s.split(sep)` for a non-empty separator. -/
def pySplit (s : String) (sep : String) : List String :=
  if sep = "" then [s]
  else (pySplitAux sep.data (s.data.length + 1) s.data []).map (fun cs => String.mk cs)

/-- The body of the `varmap` loop: split each entry on the mapping
indicator and unpack into exactly two names; an entry that does not split
into two parts raises the unpacking `ValueError`. -/
def varmapLoop : List String → Dict String → Except PyExc (Dict String)
  | [], acc => Except.ok acc
  | entry :: rest, acc =>
    match pySplit entry " -> " with
    | [attrib_name, var] => varmapLoop rest (dictSet acc attrib_name var)
    | parts =>
      Except.error (PyExc.valueError
        (if parts.length < 2 then "need more than 1 value to unpack"
         else "too many values to unpack"))

/-- `hou.Geometry.varmap()`: when the detail attribute named `varmap` does
not exist return `None`; otherwise build the dictionary from its
value(s). -/
def varmap (attrib : Option AttribValue) : Except PyExc (Option (Dict String)) :=
  match attrib with
  | none => Except.ok none
  | some av =>
    match varmapLoop (varmapValues av) [] with
    | Except.ok d => Except.ok (some d)
    | Except.error e => Except.error e

/-- The dictionary `varmap()` returns when it succeeds with a dictionary,
and `[]` otherwise; used to state the success case of `varmap` without an
existential. -/
def varmapDict (attrib : Option AttribValue) : Dict String :=
  match varmap attrib with
  | Except.ok (some d) => d
  | _ => []

/-- `setattr` followed by `getattr` of the same key returns the value just
set. -/
theorem dictGet_dictSet {α : Type} (d : Dict α) (k : String) (v : α) :
    dictGet (dictSet d k v) k = some v := by
  induction d with
  | nil => simp [dictSet, dictGet]
  | cons p rest ih =>
    obtain ⟨k₀, v₀⟩ := p
    by_cases h : k₀ = k <;> simp [dictSet, dictGet, h, ih]

/-- Every binding of `dictSet d k v` is a binding of `d` or the pair just
set. -/
theorem mem_dictSet {α : Type} (d : Dict α) (k : String) (v : α)
    (p : String × α) (hp : p ∈ dictSet d k v) : p ∈ d ∨ p = (k, v) := by
  induction d with
  | nil =>
    simp [dictSet] at hp
    exact Or.inr hp
  | cons q rest ih =>
    obtain ⟨k₀, v₀⟩ := q
    by_cases h : k₀ = k
    · simp [dictSet, h] at hp
      rcases hp with hp | hp
      · exact Or.inr (by simp [hp])
      · exact Or.inl (by simp [hp])
    · simp [dictSet, h] at hp
      rcases hp with hp | hp
      · exact Or.inl (by simp [hp])
      · rcases ih hp with h₁ | h₁
        · exact Or.inl (by simp [h₁])
        · exact Or.inr h₁

/-- When every entry splits into exactly two parts, the varmap loop
succeeds and every binding it produces was already in the accumulator or
comes from splitting one of the entries. -/
theorem varmapLoop_ok (values : List String) (acc : Dict String)
    (h : ∀ e ∈ values, ∃ a b, pySplit e " -> " = [a, b]) :
    ∃ d, varmapLoop values acc = Except.ok d ∧
      ∀ p ∈ d, p ∈ acc ∨ ∃ e ∈ values, pySplit e " -> " = [p.1, p.2] := by
  induction values generalizing acc with
  | nil => exact ⟨acc, rfl, fun p hp => Or.inl hp⟩
  | cons entry rest ih =>
    obtain ⟨a, b, hab⟩ := h entry (by simp)
    obtain ⟨d, hd, hmem⟩ := ih (dictSet acc a b) (fun e he => h e (by simp [he]))
    refine ⟨d, ?_, ?_⟩
    · simpa only [varmapLoop, hab] using hd
    · intro p hp
      rcases hmem p hp with hmem₁ | ⟨e, he, hsp⟩
      · rcases mem_dictSet acc a b p hmem₁ with h₁ | h₁
        · exact Or.inl h₁
        · exact Or.inr ⟨entry, by simp, by rw [h₁]; simpa using hab⟩
      · exact Or.inr ⟨e, by simp [he], hsp⟩

/-- C2: `sortAlongAxis(geometry_type, axis)` raises `ValueError` exactly
when the axis is not 0, 1 or 2, and then makes no native call; it raises
`hou.OperationFailed` exactly when the axis is valid but the geometry type
is neither `Points` nor `Primitives`; for a valid axis and geometry type it
makes exactly one native `sortAlongAxis` call. -/
theorem sortAlongAxis_spec (gt : GeometryType) (axis : Int) :
    ((∃ m, (sortAlongAxis gt axis).1 = Except.error (PyExc.valueError m)) ↔
      ¬ (axis = 0 ∨ axis = 1 ∨ axis = 2))
    ∧ (¬ (axis = 0 ∨ axis = 1 ∨ axis = 2) → (sortAlongAxis gt axis).2 = [])
    ∧ ((∃ m, (sortAlongAxis gt axis).1 = Except.error (PyExc.operationFailed m)) ↔
      ((axis = 0 ∨ axis = 1 ∨ axis = 2) ∧
        gt ≠ GeometryType.Points ∧ gt ≠ GeometryType.Primitives))
    ∧ ((axis = 0 ∨ axis = 1 ∨ axis = 2) →
      (gt = GeometryType.Points ∨ gt = GeometryType.Primitives) →
      (sortAlongAxis gt axis).2 =
        [NativeCall.sortAlongAxisNative (if gt = GeometryType.Points then 0 else 1) axis]) := by
  by_cases h : (axis = 0 ∨ axis = 1 ∨ axis = 2) <;> cases gt <;>
    simp [sortAlongAxis, h]

/-- C2 witness: sorting points along axis 1 is valid and makes exactly the
one native call. -/
theorem sortAlongAxis_spec_witness :
    (sortAlongAxis GeometryType.Points 1).2 =
      [NativeCall.sortAlongAxisNative
        (if GeometryType.Points = GeometryType.Points then 0 else 1) 1] :=
  (sortAlongAxis_spec GeometryType.Points 1).2.2.2 (Or.inr (Or.inl rfl)) (Or.inl rfl)

/-- C3: `createPoints(count)` raises `hou.OperationFailed` exactly when
`count <= 0`, in which case the geometry is unchanged and no native call is
made; for a positive count it makes exactly one native `createPoints` call
and returns its freshly created point numbers, which all lie in the newly
appended range. -/
theorem createPoints_spec (gdp : Geometry) (count : Int) :
    ((∃ m, (createPoints gdp count).1 = Except.error (PyExc.operationFailed m)) ↔
      count ≤ 0)
    ∧ (count ≤ 0 →
      (createPoints gdp count).2.1 = gdp ∧ (createPoints gdp count).2.2 = [])
    ∧ (0 < count →
      (createPoints gdp count).2.2 = [NativeCall.createPointsNative count]
      ∧ (createPoints gdp count).1 = Except.ok (createPoints_native gdp count).2
      ∧ (createPoints_native gdp count).2.length = count.toNat
      ∧ ∀ n ∈ (createPoints_native gdp count).2,
          gdp.numPoints ≤ n ∧ n < (createPoints gdp count).2.1.numPoints) := by
  refine ⟨?_, ?_, ?_⟩
  · by_cases h : count ≤ 0 <;> simp [createPoints, h]
  · intro h
    simp [createPoints, h]
  · intro h
    have h₀ : ¬ count ≤ 0 := not_le.mpr h
    refine ⟨by simp [createPoints, h₀], by simp [createPoints, h₀],
      by simp [createPoints_native], ?_⟩
    intro n hn
    simp only [createPoints_native, List.mem_map, List.mem_range] at hn
    obtain ⟨i, hi, rfl⟩ := hn
    refine ⟨Nat.le_add_right _ _, ?_⟩
    simp [createPoints, h₀, createPoints_native]
    omega

/-- C3 witness: creating 3 points on a 5-point geometry makes one native
call. -/
theorem createPoints_spec_witness :
    (createPoints ⟨5⟩ 3).2.2 = [NativeCall.createPointsNative 3] :=
  ((createPoints_spec ⟨5⟩ 3).2.2 (by decide)).1

/-- C4: `findPrimByName` returns `None` exactly when the native search
returns the sentinel `-1`, and otherwise returns the primitive whose
number equals the native result. -/
theorem findPrimByName_spec (hostFind : String → String → Int → Option Nat)
    (name_to_match : String) (name_attribute : String) (match_number : Int) :
    (findPrimByName hostFind name_to_match name_attribute match_number = none ↔
      findPrimitiveByName_native (hostFind name_to_match name_attribute match_number) = -1)
    ∧ (∀ n, findPrimByName hostFind name_to_match name_attribute match_number = some n →
      (n : Int) =
        findPrimitiveByName_native (hostFind name_to_match name_attribute match_number)) := by
  cases hres : hostFind name_to_match name_attribute match_number with
  | none => simp [findPrimByName, findPrimitiveByName_native, hres]
  | some k =>
    have hk : ¬ ((k : Int) = -1) := by omega
    constructor
    · simp [findPrimByName, findPrimitiveByName_native, hres, hk]
    · intro n hn
      simp only [findPrimByName, findPrimitiveByName_native, hres, if_neg hk,
        Option.some.injEq] at hn
      simp [findPrimitiveByName_native, hres, ← hn]

/-- C4 witness: when the host search finds primitive 7, the wrapper returns
primitive number 7. -/
theorem findPrimByName_spec_witness :
    ((7 : Nat) : Int) =
      findPrimitiveByName_native ((fun _ _ _ => some 7) "red" "name" 0) :=
  (findPrimByName_spec (fun _ _ _ => some 7) "red" "name" 0).2 7 (by decide)

/-- C5: `setSharedPointStringAttrib` and `setSharedPrimStringAttrib` raise
`hou.OperationFailed` exactly when the native call returns the sentinel 1,
which happens exactly when the named string attribute does not exist on the
geometry; when the attribute exists the call succeeds. -/
theorem setSharedStringAttrib_spec (gdp : AttribGeometry) (attrib : String)
    (value : String) (group : Option String) :
    ((setSharedPointStringAttrib gdp attrib value group =
        Except.error (PyExc.operationFailed "Invalid attribute.")) ↔
      setSharedPointStringAttrib_native gdp attrib value (group.getD "") = 1)
    ∧ (setSharedPointStringAttrib_native gdp attrib value (group.getD "") = 1 ↔
      ¬ attrib ∈ gdp.pointStringAttribs)
    ∧ (attrib ∈ gdp.pointStringAttribs →
      setSharedPointStringAttrib gdp attrib value group = Except.ok ())
    ∧ ((setSharedPrimStringAttrib gdp attrib value group =
        Except.error (PyExc.operationFailed "Invalid attribute.")) ↔
      setSharedPrimStringAttrib_native gdp attrib value (group.getD "") = 1)
    ∧ (setSharedPrimStringAttrib_native gdp attrib value (group.getD "") = 1 ↔
      ¬ attrib ∈ gdp.primStringAttribs)
    ∧ (attrib ∈ gdp.primStringAttribs →
      setSharedPrimStringAttrib gdp attrib value group = Except.ok ()) := by
  cases group <;>
    by_cases hp : attrib ∈ gdp.pointStringAttribs <;>
    by_cases hq : attrib ∈ gdp.primStringAttribs <;>
    simp [setSharedPointStringAttrib, setSharedPrimStringAttrib,
      setSharedPointStringAttrib_native, setSharedPrimStringAttrib_native, hp, hq]

/-- C5 witness: setting a shared value on an existing point string
attribute succeeds without an exception. -/
theorem setSharedStringAttrib_spec_witness :
    setSharedPointStringAttrib ⟨["path"], []⟩ "path" "value" none = Except.ok () :=
  (setSharedStringAttrib_spec ⟨["path"], []⟩ "path" "value" none).2.2.1 (by decide)

/-- C6: `addToModule` sets the function on the module under its own name
and returns it; `addToClass` returns the function unmodified, keeps the
class list length, and puts into the result, for every target class, that
class updated so that looking up the `name` keyword argument (or the
function's own name when none is given) yields the unbound method wrapping
the function. -/
theorem addTo_spec (module : PyModule) (classes : List HomClass)
    (kwargsName : Option String) (f : PyFunc) :
    (addToModule module f).2 = f
    ∧ dictGet (addToModule module f).1.attrs f.fname = some f
    ∧ (addToClass classes kwargsName f).2 = f
    ∧ ((addToClass classes kwargsName f).1).length = classes.length
    ∧ (∀ c ∈ classes,
        (⟨c.cname, dictSet c.attrs (kwargsName.getD f.fname) (methodType f c)⟩ : HomClass) ∈
          (addToClass classes kwargsName f).1)
    ∧ (∀ c : HomClass,
        dictGet (dictSet c.attrs (kwargsName.getD f.fname) (methodType f c))
          (kwargsName.getD f.fname) = some (methodType f c)) := by
  refine ⟨rfl, dictGet_dictSet _ _ _, rfl, by simp [addToClass], ?_, ?_⟩
  · intro c hc
    cases kwargsName with
    | none => exact List.mem_map_of_mem _ hc
    | some n => exact List.mem_map_of_mem _ hc
  · intro c
    exact dictGet_dictSet _ _ _

/-- C6 witness: decorating a function named `varmap` onto a single class
with no `name` keyword stores the unbound method under `varmap` on that
class. -/
theorem addTo_spec_witness :
    (⟨"Geometry",
      dictSet [] ((none : Option String).getD (PyFunc.fname ⟨"varmap", 0⟩))
        (methodType ⟨"varmap", 0⟩ ⟨"Geometry", []⟩)⟩ : HomClass) ∈
      (addToClass [⟨"Geometry", []⟩] none ⟨"varmap", 0⟩).1 :=
  (addTo_spec ⟨[]⟩ [⟨"Geometry", []⟩] none ⟨"varmap", 0⟩).2.2.2.2.1
    ⟨"Geometry", []⟩ (by simp)

/-- C7 counterexample: `sortAlongAxis` with the out-of-range axis 3 raises
`ValueError`, a built-in of the implementation language, not one of the
host-defined exception types. -/
theorem hostExc_counterexample :
    (sortAlongAxis GeometryType.Points 3).1 =
      Except.error (PyExc.valueError "Invalid axis: 3")
    ∧ isHostDefined (PyExc.valueError "Invalid axis: 3") = false := by
  constructor
  · rfl
  · rfl

/-- C7 amended: a precondition failure raises either a host-defined
exception type or one of three built-ins of the implementation language:
`sortAlongAxis` raises only `ValueError` or `hou.OperationFailed`,
`shiftElements` only `TypeError` or `hou.OperationFailed`, and
`inputLabel` only `IndexError`; the built-in cases are not host-defined. -/
theorem hostExc_amended :
    (∀ gt (axis : Int) e, (sortAlongAxis gt axis).1 = Except.error e →
      (∃ m, e = PyExc.valueError m) ∨ (∃ m, e = PyExc.operationFailed m))
    ∧ (∀ gt v e, (shiftElements gt v).1 = Except.error e →
      (∃ m, e = PyExc.typeError m) ∨ (∃ m, e = PyExc.operationFailed m))
    ∧ (∀ maxNumInputs hostLabel (index : Int) e,
      (inputLabel maxNumInputs hostLabel index).1 = Except.error e →
      ∃ m, e = PyExc.indexError m)
    ∧ isHostDefined (PyExc.valueError "Invalid axis: 3") = false
    ∧ isHostDefined (PyExc.typeError "Got str, expected int.") = false
    ∧ isHostDefined (PyExc.indexError "Index out of range.") = false := by
  refine ⟨?_, ?_, ?_, rfl, rfl, rfl⟩
  · intro gt axis e he
    by_cases h : (axis = 0 ∨ axis = 1 ∨ axis = 2) <;> cases gt <;>
      simp [sortAlongAxis, h] at he <;>
      first
        | exact Or.inl ⟨_, he.symm⟩
        | exact Or.inr ⟨_, he.symm⟩
  · intro gt v e he
    cases v <;> cases gt <;>
      simp [shiftElements] at he <;>
      first
        | exact Or.inl ⟨_, he.symm⟩
        | exact Or.inr ⟨_, he.symm⟩
  · intro maxNumInputs hostLabel index e he
    by_cases h : (0 ≤ index ∧ index < (maxNumInputs : Int)) <;>
      simp [inputLabel, h] at he
    exact ⟨_, he.symm⟩

/-- C7 witness: the `TypeError` that `shiftElements` raises for a string
offset is not host-defined. -/
theorem hostExc_amended_witness :
    (∃ m, (PyExc.typeError "Got str, expected int.") = PyExc.typeError m) ∨
      (∃ m, (PyExc.typeError "Got str, expected int.") = PyExc.operationFailed m) :=
  hostExc_amended.2.1 GeometryType.Points (PyValue.strVal "a")
    (PyExc.typeError "Got str, expected int.") rfl

/-- C1 counterexample: `isMultiParm`, a public function this module
attaches to `hou.Parm` and `hou.ParmTuple`, makes zero native calls rather
than exactly one: its whole computation happens in the scripting layer. -/
theorem passThrough_counterexample :
    (isMultiParm (ParmTemplate.folderTemplate FolderType.MultiparmBlock)).2.length = 0
    ∧ ¬ (isMultiParm (ParmTemplate.folderTemplate FolderType.MultiparmBlock)).2.length = 1 := by
  constructor
  · rfl
  · decide

/-- C1 amended: not every attached public function is a single-native-call
pass-through.  `isMultiParm` makes no native call on any input and decides
folder-type membership entirely in the scripting layer, while functions
that do delegate, such as `sortAlongAxis` and `createPoints` on valid
arguments, validate preconditions in the scripting layer and then make
exactly one native call. -/
theorem passThrough_amended :
    (∀ pt, (isMultiParm pt).2 = [])
    ∧ (∀ ft, (isMultiParm (ParmTemplate.folderTemplate ft)).1 = true ↔
      (ft = FolderType.MultiparmBlock ∨ ft = FolderType.ScrollingMultiparmBlock ∨
        ft = FolderType.TabbedMultiparmBlock))
    ∧ (∀ gt (axis : Int), (axis = 0 ∨ axis = 1 ∨ axis = 2) →
      (gt = GeometryType.Points ∨ gt = GeometryType.Primitives) →
      (sortAlongAxis gt axis).2.length = 1)
    ∧ (∀ gdp (count : Int), 0 < count → (createPoints gdp count).2.2.length = 1) := by
  refine ⟨?_, ?_, ?_, ?_⟩
  · intro pt
    cases pt with
    | folderTemplate ft =>
      by_cases h : (ft = FolderType.MultiparmBlock ∨ ft = FolderType.ScrollingMultiparmBlock ∨
        ft = FolderType.TabbedMultiparmBlock) <;> simp [isMultiParm, h]
    | intTemplate => rfl
    | floatTemplate => rfl
    | stringTemplate => rfl
  · intro ft
    by_cases h : (ft = FolderType.MultiparmBlock ∨ ft = FolderType.ScrollingMultiparmBlock ∨
      ft = FolderType.TabbedMultiparmBlock) <;> simp [isMultiParm, h]
  · intro gt axis h hgt
    rcases hgt with hgt | hgt <;> subst hgt <;> simp [sortAlongAxis, h]
  · intro gdp count h
    simp [createPoints, not_le.mpr h]

/-- C1 amended witness: sorting points along axis 0 makes exactly one
native call. -/
theorem passThrough_amended_witness :
    (sortAlongAxis GeometryType.Points 0).2.length = 1 :=
  passThrough_amended.2.2.1 GeometryType.Points 0 (Or.inl rfl) (Or.inl rfl)

/-- C8: `hou.hda.getMetaSource(file_path)` returns `None` exactly when
`file_path` is not among the loaded HDA files, and otherwise returns the
string the native `getMetaSource` call produces. -/
theorem getMetaSource_spec (loadedFiles : List String)
    (findLibrary : String → Int) (libMetaSource : Int → String)
    (file_path : String) :
    (getMetaSource loadedFiles findLibrary libMetaSource file_path = none ↔
      ¬ file_path ∈ loadedFiles)
    ∧ (file_path ∈ loadedFiles →
      getMetaSource loadedFiles findLibrary libMetaSource file_path =
        some (getMetaSource_native findLibrary libMetaSource file_path)) := by
  by_cases h : file_path ∈ loadedFiles <;> simp [getMetaSource, h]

/-- C8 witness: a loaded file maps to the native meta source string. -/
theorem getMetaSource_spec_witness :
    getMetaSource ["a.otl"] (fun _ => 0) (fun _ => "Scanned OTL Directories") "a.otl" =
      some (getMetaSource_native (fun _ => 0) (fun _ => "Scanned OTL Directories") "a.otl") :=
  (getMetaSource_spec ["a.otl"] (fun _ => 0) (fun _ => "Scanned OTL Directories")
    "a.otl").2 (by decide)

/-- C9: `Vector3.project(self, vector)` raises `hou.OperationFailed`
exactly when `vector` is the zero vector, and for a non-zero `vector`
returns `vector.normalized()` scaled by `self.dot(vector.normalized())`,
the component of `self` along `vector`. -/
theorem project_spec (normalized : Vector3 → Vector3) (self vector : Vector3) :
    ((∃ m, project normalized self vector = Except.error (PyExc.operationFailed m)) ↔
      vector = v3zero)
    ∧ (¬ vector = v3zero →
      project normalized self vector =
        Except.ok (smul (dot self (normalized vector)) (normalized vector)))
    ∧ componentAlong normalized self vector = dot self (normalized vector) := by
  by_cases h : vector = v3zero <;>
    simp [project, componentAlong, h]

/-- C9 witness: projecting (3, 4, 0) onto the non-zero vector (1, 0, 0)
(its own normalization) gives (3, 0, 0). -/
theorem project_spec_witness :
    project id ⟨3, 4, 0⟩ ⟨1, 0, 0⟩ =
      Except.ok (smul (dot ⟨3, 4, 0⟩ (id ⟨1, 0, 0⟩)) (id ⟨1, 0, 0⟩)) :=
  (project_spec id ⟨3, 4, 0⟩ ⟨1, 0, 0⟩).2.1 (by decide)

/-- C10 counterexample: on a geometry whose `varmap` detail attribute holds
the single string `foo`, which contains no mapping indicator, `varmap()`
raises the unpacking `ValueError` instead of returning a dictionary. -/
theorem varmap_counterexample :
    varmap (some (AttribValue.strOne "foo")) =
      Except.error (PyExc.valueError "need more than 1 value to unpack") := rfl

/-- C10 amended: `varmap()` returns `None` exactly when the geometry has no
`varmap` detail attribute; a single string value is treated as a
one-element tuple; when every entry splits on the mapping indicator into
exactly two parts, the result is a dictionary each of whose bindings maps,
for some entry, the text before the indicator to the text after it; an
entry that does not split into two parts makes the unpacking `ValueError`
propagate instead. -/
theorem varmap_spec (attrib : Option AttribValue) :
    (varmap attrib = Except.ok none ↔ attrib = none)
    ∧ (∀ s, varmap (some (AttribValue.strOne s)) =
      varmap (some (AttribValue.strTuple [s])))
    ∧ (∀ av, attrib = some av →
      (∀ e ∈ varmapValues av, ∃ a b, pySplit e " -> " = [a, b]) →
      varmap attrib = Except.ok (some (varmapDict attrib))
      ∧ ∀ p ∈ varmapDict attrib,
          ∃ e ∈ varmapValues av, pySplit e " -> " = [p.1, p.2]) := by
  refine ⟨?_, fun s => rfl, ?_⟩
  · cases attrib with
    | none => simp [varmap]
    | some av =>
      cases h : varmapLoop (varmapValues av) [] <;> simp [varmap, h]
  · intro av hav hwf
    subst hav
    obtain ⟨d, hd, hmem⟩ := varmapLoop_ok (varmapValues av) [] hwf
    have hv : varmap (some av) = Except.ok (some d) := by
      simp [varmap, hd]
    have hdict : varmapDict (some av) = d := by
      simp [varmapDict, hv]
    refine ⟨by rw [hv, hdict], ?_⟩
    intro p hp
    rw [hdict] at hp
    rcases hmem p hp with hmem₁ | hmem₁
    · simp at hmem₁
    · exact hmem₁

/-- C10 witness: the two-element varmap value splits cleanly and yields a
dictionary whose bindings all come from the entries. -/
theorem varmap_spec_witness :
    varmap (some (AttribValue.strTuple ["Cd -> CR", "P -> PX"])) =
      Except.ok (some (varmapDict (some (AttribValue.strTuple ["Cd -> CR", "P -> PX"])))) := by
  refine ((varmap_spec (some (AttribValue.strTuple ["Cd -> CR", "P -> PX"]))).2.2 _ rfl ?_).1
  intro e he
  simp [varmapValues] at he
  rcases he with he | he <;> subst he
  · exact ⟨"Cd", "CR", by decide⟩
  · exact ⟨"P", "PX", by decide⟩

end HT
